import Mathlib

/-!
Shallow embedding of the signal-generation and trade-lifecycle core of the
stock-analyze repository: the two strategies (`strategies/bollinger_strategy.py`,
`strategies/breakout_strategy.py`), the historical simulator (`simulator.py`),
the position lifecycle tracker (`positions.py`) and the feature engine
(`technical_analysis.py`).  Python floats are embedded as exact rationals;
pandas NaN is embedded as `Option.none`.
-/

namespace StockAnalyze

/- The Batteries rational arithmetic is marked `@[irreducible]`, which blocks
the literal-level evaluation that `decide` relies on; restore the default
reducibility for those operations. -/
attribute [local semireducible] Rat.add Rat.sub Rat.mul Rat.inv Rat.ofScientific


/-- The inclusion ℤ → ℚ, written with `Rat.divInt` so that it evaluates
shallowly (it equals the `Int.cast` coercion, see `intToQ_eq`). -/
def intToQ (n : ℤ) : ℚ := Rat.divInt n 1

/-- Python `round` to an integer: round half to even (banker's rounding).
`Rat.floor` is used rather than the `⌊ ⌋` notation so that the definition
evaluates shallowly. -/
def rhe (q : ℚ) : ℤ :=
  if q - intToQ (Rat.floor q) < 1/2 then Rat.floor q
  else if 1/2 < q - intToQ (Rat.floor q) then Rat.floor q + 1
  else if Rat.floor q % 2 = 0 then Rat.floor q else Rat.floor q + 1

/-- Python `round(x, 2)`. -/
def round2 (q : ℚ) : ℚ := intToQ (rhe (q * 100)) / 100

/-- Python `round(x, 4)`. -/
def round4 (q : ℚ) : ℚ := intToQ (rhe (q * 10000)) / 10000

/-- Python `round(x, 0)`. -/
def round0 (q : ℚ) : ℚ := intToQ (rhe q)

/-- Newton iteration for the integer square root, with explicit fuel so that
it reduces by structural recursion. -/
def isqrtIter : ℕ → ℕ → ℕ → ℕ
  | 0, _, guess => guess
  | fuel + 1, n, guess =>
    let next := (guess + n / guess) / 2
    if next < guess then isqrtIter fuel n next else guess

/-- Floor integer square root (Newton's method, starting from `n / 2`). -/
def isqrt (n : ℕ) : ℕ := if n ≤ 1 then n else isqrtIter n n (n / 2)

/-- Square root on ℚ, exact whenever the argument is the square of a rational
(in particular at every concrete input evaluated below) and accurate to about
`10 ^ (-6)` otherwise; this embeds the floating-point square root used by the
pandas rolling standard deviation. -/
def sqrtQ (q : ℚ) : ℚ :=
  if q ≤ 0 then 0
  else (isqrt (q.num.toNat * q.den * 10 ^ 12) : ℚ) / ((q.den : ℚ) * 10 ^ 6)

/-- One pass of pairwise summation: add adjacent elements. -/
def sumPairwise : List ℚ → List ℚ
  | [] => []
  | [x] => [x]
  | x :: y :: rest => (x + y) :: sumPairwise rest

/-- Pairwise summation with fuel (`fuel = length` always suffices). -/
def listSumGo : ℕ → List ℚ → ℚ
  | _, [] => 0
  | _, [x] => x
  | 0, _ => 0
  | fuel + 1, l => listSumGo fuel (sumPairwise l)

/-- Sum of a list of rationals.  Pairwise (balanced) summation gives the same
rational as a left fold of `+` while keeping the reduction shallow. -/
def listSum (l : List ℚ) : ℚ := listSumGo l.length l

/-- Arithmetic mean of a list (onlly applied to nonempty windows below). -/
def mean (l : List ℚ) : ℚ := listSum l / (l.length : ℚ)

/-- pandas sample standard deviation (`ddof = 1`). -/
def sampleStd (l : List ℚ) : ℚ :=
  sqrtQ (listSum (l.map (fun x => (x - mean l) ^ 2)) / ((l.length : ℚ) - 1))

/-- Python `abs`, written as an explicit conditional so that it evaluates
shallowly. -/
def absQ (q : ℚ) : ℚ := if q < 0 then -q else q

/-- numpy `.max()` of a nonempty list. -/
def listMax (l : List ℚ) : ℚ := l.foldl max (l.headD 0)

/-- numpy `.min()` of a nonempty list. -/
def listMin (l : List ℚ) : ℚ := l.foldl min (l.headD 0)

/-- The window of `w` elements ending `off` places before the end of the
series: pandas `series.rolling(w)` evaluated at `iloc[-(1 + off)]`.  `none`
embeds the NaN a not-yet-full rolling window produces. -/
def lastWindow (w off : ℕ) (l : List ℚ) : Option (List ℚ) :=
  if w + off ≤ l.length then some ((l.take (l.length - off)).drop (l.length - off - w))
  else none

/-- `series.rolling(w).mean().iloc[-(1 + off)]`. -/
def rollingMeanLast (w off : ℕ) (l : List ℚ) : Option ℚ := (lastWindow w off l).map mean

/-- `series.rolling(w).std().iloc[-(1 + off)]`. -/
def rollingStdLast (w off : ℕ) (l : List ℚ) : Option ℚ := (lastWindow w off l).map sampleStd

/-- `series.iloc[-(1 + off)]` (only used with the index in range). -/
def fromLast (off : ℕ) (l : List ℚ) : ℚ := l.getD (l.length - 1 - off) 0

/-- One OHLCV bar; `date` is a day number (day 0 a Monday, so that
`d % 7 ∈ {5, 6}` is the weekend, matching `datetime.date.weekday`). -/
structure Bar where
  date : ℤ
  open_ : ℚ
  high : ℚ
  low : ℚ
  close : ℚ
  volume : ℚ
deriving DecidableEq, Repr

def defaultBar : Bar :=
  { date := 0, open_ := 0, high := 0, low := 0, close := 0, volume := 0 }

/-- A strategy signal dict: trend, target, stoploss, reward:risk, holding
horizon.  The Vietnamese `reason` text is presentation only and is omitted. -/
structure Signal where
  trend : String
  target : ℚ
  stoploss : ℚ
  rr_ratio : ℚ
  t_plus : ℕ
deriving DecidableEq, Repr

/-- Modelled from the spec: `predictor.recommend_t_plus` is imported by both
strategies but its definition is not among the sources.  The spec says that a
higher reward:risk together with a confirmed volume spike yields a longer
holding horizon within the configured [3, 5] bound, the exact mapping being a
tunable table rather than a hard contract. -/
def recommend_t_plus (rr : ℚ) (volumeSpike : Bool) : ℕ :=
  if 2 ≤ rr ∧ volumeSpike then 5
  else if 2 ≤ rr ∨ volumeSpike then 4
  else 3

/-! ### BollingerStrategy (strategies/bollinger_strategy.py) -/

def BB_PERIOD : ℕ := 20

def BB_STD : ℚ := 2

/-- `BollingerStrategy._neutral_signal`. -/
def bollinger_neutral (entry : ℚ) : Signal :=
  let target := round2 (entry * (102/100))
  let stoploss := round2 (entry * (99/100))
  let rr := if 0 < absQ (entry - stoploss) then
      round2 (absQ (target - entry) / absQ (entry - stoploss))
    else 0
  { trend := "Di_Ngang", target := target, stoploss := stoploss, rr_ratio := rr, t_plus := 5 }

/-- `BollingerStrategy._check_volume_exhaustion`: volume at the touch bar
(previous bar) at or above its own 20-bar average. -/
def bollinger_check_volume_exhaustion (df : List Bar) : Bool :=
  if df.length < 22 then true
  else
    match rollingMeanLast 20 1 (df.map Bar.volume) with
    | none => true
    | some v => if v ≤ 0 then true else decide (v * 1 ≤ fromLast 1 (df.map Bar.volume))

/-- `BollingerStrategy._check_volume_spike`. -/
def bollinger_check_volume_spike (df : List Bar) : Bool :=
  if df.length < 20 then false
  else
    match rollingMeanLast 20 0 (df.map Bar.volume) with
    | none => false
    | some avg => decide (0 < avg ∧ avg * (12/10) < fromLast 0 (df.map Bar.volume))

/-- The directional branch of `BollingerStrategy.generate_signal`
(lines 89-127): reward, risk, reward:risk, volume spike and horizon. -/
def bollinger_directional (trend : String) (target stoploss entry : ℚ) (df : List Bar) :
    Signal :=
  let reward := absQ (target - entry)
  let risk := absQ (entry - stoploss)
  let rr := if 0 < risk then round2 (reward / risk) else 0
  { trend := trend, target := target, stoploss := stoploss, rr_ratio := rr,
    t_plus := recommend_t_plus rr (bollinger_check_volume_spike df) }

/-- Body of `BollingerStrategy.generate_signal` for a nonempty frame.
The `match` on the rolling statistics embeds the `pd.isna` guards. -/
def bollinger_signal_body (df : List Bar) : Signal :=
  let closes := df.map Bar.close
  if df.length < 52 then bollinger_neutral (fromLast 0 closes)
  else
    match rollingMeanLast 20 0 closes, rollingStdLast 20 0 closes with
    | some m, some sd =>
      let middle := m
      let upper := m + BB_STD * sd
      let lower := m - BB_STD * sd
      let entry := fromLast 0 closes
      let bandwidth := if 0 < middle then (upper - lower) / middle else 0
      if bandwidth < 3/100 then bollinger_neutral entry
      else
        match rollingMeanLast 50 0 closes, rollingMeanLast 50 5 closes with
        | some sma50_now, some sma50_prev =>
          let trend_up := decide (sma50_prev ≤ sma50_now)
          let trend_down := decide (sma50_now ≤ sma50_prev)
          match rollingMeanLast 20 1 closes, rollingStdLast 20 1 closes with
          | some pm, some psd =>
            let prev_lower := pm - BB_STD * psd
            let prev_upper := pm + BB_STD * psd
            let prev_low := fromLast 1 (df.map Bar.low)
            let prev_high := fromLast 1 (df.map Bar.high)
            let cur_close := fromLast 0 closes
            let tang_confirmed := decide (prev_low ≤ prev_lower ∧ lower < cur_close)
            let giam_confirmed := decide (prev_upper ≤ prev_high ∧ cur_close < upper)
            let vol_ok := bollinger_check_volume_exhaustion df
            if tang_confirmed && trend_up && vol_ok then
              bollinger_directional "Tang" (round2 middle) (round2 (lower * (985/1000)))
                entry df
            else if giam_confirmed && trend_down && vol_ok then
              bollinger_directional "Giam" (round2 middle) (round2 (upper * (1015/1000)))
                entry df
            else bollinger_neutral entry
          | _, _ => bollinger_neutral entry
        | _, _ => bollinger_neutral entry
    | _, _ => bollinger_neutral (fromLast 0 closes)

/-- `BollingerStrategy.generate_signal`.  `none` embeds the exception the
Python raises on an empty frame (`close.iloc[-1]`). -/
def bollinger_generate_signal (df : List Bar) : Option Signal :=
  if df.length = 0 then none else some (bollinger_signal_body df)

/-! ### BreakoutStrategy (strategies/breakout_strategy.py) -/

def N_PERIOD : ℕ := 20

def TP_PCT : ℚ := 7/100

def SL_PCT : ℚ := 3/100

/-- `BreakoutStrategy._neutral_signal`. -/
def breakout_neutral (entry : ℚ) : Signal :=
  { trend := "Di_Ngang", target := round2 (entry * (1 + TP_PCT)),
    stoploss := round2 (entry * (1 - SL_PCT)),
    rr_ratio := round2 (TP_PCT / SL_PCT), t_plus := 5 }

/-- Body of `BreakoutStrategy.generate_signal` for a nonempty frame.
`high.iloc[-(N+1):-1]` is the window of the `N_PERIOD` bars immediately before
the current one.  Volume minimum is `SMA20 × 1.5` (VOL_RATIO in the source). -/
def breakout_signal_body (df : List Bar) : Signal :=
  let closes := df.map Bar.close
  let entry := fromLast 0 closes
  if df.length < N_PERIOD + 5 then breakout_neutral entry
  else
    let highs := df.map Bar.high
    let lows := df.map Bar.low
    let vols := df.map Bar.volume
    let resistance := listMax ((highs.take (df.length - 1)).drop (df.length - 1 - N_PERIOD))
    let support := listMin ((lows.take (df.length - 1)).drop (df.length - 1 - N_PERIOD))
    match rollingMeanLast 20 0 vols with
    | none => breakout_neutral entry
    | some vol_sma =>
      if vol_sma ≤ 0 then breakout_neutral entry
      else
        let cur_vol := fromLast 0 vols
        let vol_ok := decide (vol_sma * (3/2) ≤ cur_vol)
        match rollingMeanLast 20 0 closes, rollingMeanLast 20 5 closes with
        | some sma20_now, some sma20_prev =>
          let trend_up := decide (sma20_prev < sma20_now)
          let trend_down := decide (sma20_now < sma20_prev)
          let rr := round2 (TP_PCT / SL_PCT)
          let volume_spike := decide (vol_sma * (12/10) ≤ cur_vol)
          let t_plus := recommend_t_plus rr volume_spike
          if decide (resistance ≤ entry) && vol_ok && trend_up then
            { trend := "Tang", target := round2 (entry * (1 + TP_PCT)),
              stoploss := round2 (entry * (1 - SL_PCT)), rr_ratio := rr, t_plus := t_plus }
          else if decide (entry ≤ support) && vol_ok && trend_down then
            { trend := "Giam", target := round2 (entry * (1 - TP_PCT)),
              stoploss := round2 (entry * (1 + SL_PCT)), rr_ratio := rr, t_plus := t_plus }
          else breakout_neutral entry
        | _, _ => breakout_neutral entry

/-- `BreakoutStrategy.generate_signal`.  `none` embeds the exception on an
empty frame. -/
def breakout_generate_signal (df : List Bar) : Option Signal :=
  if df.length = 0 then none else some (breakout_signal_body df)

/-! ### Simulation engine (simulator.py) -/

def MIN_LOOKBACK : ℕ := 60

/-- Modelled from the spec: the horizon bounds `T_PLUS_MIN` / `T_PLUS_MAX` are
imported from a config module whose definition is not among the sources; the
spec clamps the holding horizon to a configured [min, max] and the simulator
documents the range as 3..5 trading days. -/
def T_PLUS_MIN : ℕ := 3

/-- Modelled from the spec: see `T_PLUS_MIN`. -/
def T_PLUS_MAX : ℕ := 5

structure TradeRecord where
  symbol : String
  strategy : String
  signal_date : ℤ
  entry_date : ℤ
  exit_date : ℤ
  trend : String
  entry_price : ℚ
  target : ℚ
  stoploss : ℚ
  t_plus : ℕ
  exit_price : ℚ
  exit_reason : String
  shares : ℚ
  pnl : ℚ
  pnl_pct : ℚ
  result : String
deriving DecidableEq, Repr

/-- The per-bar exit decision of `run_simulation` (simulator.py lines 98-130):
target checked before stop; a non-Tang non-Giam trend is treated with a long
(Tang-like) bias. -/
def sim_exit_decision (trend : String) (target stoploss high low : ℚ) :
    Option (ℚ × String) :=
  if trend = "Tang" then
    if target ≤ high then some (target, "TP")
    else if low ≤ stoploss then some (stoploss, "SL")
    else none
  else if trend = "Giam" then
    if low ≤ target then some (target, "TP")
    else if stoploss ≤ high then some (stoploss, "SL")
    else none
  else
    if target ≤ high then some (target, "TP")
    else if low ≤ stoploss then some (stoploss, "SL")
    else none

/-- The horizon fallback of `run_simulation` (lines 132-137): when no bar in
the window hit target or stop, exit at the close of the last checked bar with
reason "T+ expire". -/
def sim_resolve_exit (found : Option (ℚ × String × ℤ)) (lastBar : Bar) : ℚ × String × ℤ :=
  match found with
  | some e => e
  | none => (lastBar.close, "T+ expire", lastBar.date)

/-- Realized P&L of `run_simulation` (lines 140-144). -/
def sim_pnl (trend : String) (shares entry_price exit_price : ℚ) : ℚ :=
  if trend = "Giam" then shares * (entry_price - exit_price)
  else shares * (exit_price - entry_price)

/-- Percent P&L of `run_simulation` (lines 142-145). -/
def sim_pnl_pct (trend : String) (entry_price exit_price : ℚ) : ℚ :=
  if trend = "Giam" then (entry_price - exit_price) / entry_price * 100
  else (exit_price - entry_price) / entry_price * 100

/-- Win/Loss/Breakeven classification of `run_simulation` (line 147). -/
def sim_result (trend : String) (shares entry_price exit_price : ℚ) : String :=
  if 0 < sim_pnl trend shares entry_price exit_price then "Win"
  else if sim_pnl trend shares entry_price exit_price < 0 then "Loss"
  else "Breakeven"

/-- One iteration of the day loop of `run_simulation`: signal from
`df[: d + 1]`, fill at the next day's open (skip on a non-positive fill), walk
at most `t_plus` subsequent bars for an exit, horizon fallback, P&L, record.
`none` embeds `continue` (including a strategy exception).  The `target is
None` guard of the source cannot fire here because `Signal` carries total
target/stop fields, as both strategies always produce them. -/
def sim_day (symbol stratName : String) (gen : List Bar → Option Signal)
    (shares : ℚ) (df : List Bar) (d : ℕ) : Option TradeRecord :=
  let n := df.length
  match gen (df.take (d + 1)) with
  | none => none
  | some signal =>
    let trend := signal.trend
    let target := signal.target
    let stoploss := signal.stoploss
    let t_plus := max T_PLUS_MIN (min T_PLUS_MAX signal.t_plus)
    let entry_idx := d + 1
    let entry_row := df.getD entry_idx defaultBar
    let entry_price := entry_row.open_
    if entry_price ≤ 0 then none
    else
      let found := ((List.range t_plus).map (· + 1)).findSome? (fun off =>
        let check_idx := entry_idx + off
        if n ≤ check_idx then none
        else
          let bar := df.getD check_idx defaultBar
          (sim_exit_decision trend target stoploss bar.high bar.low).map
            (fun e => (e.1, e.2, bar.date)))
      let last_check_idx := min (entry_idx + t_plus) (n - 1)
      let ex := sim_resolve_exit found (df.getD last_check_idx defaultBar)
      let exit_price := ex.1
      let pnl := sim_pnl trend shares entry_price exit_price
      some { symbol := symbol, strategy := stratName,
             signal_date := (df.getD d defaultBar).date,
             entry_date := entry_row.date, exit_date := ex.2.2, trend := trend,
             entry_price := round2 entry_price, target := round2 target,
             stoploss := round2 stoploss, t_plus := t_plus,
             exit_price := round2 exit_price, exit_reason := ex.2.1,
             shares := shares, pnl := round0 pnl,
             pnl_pct := round2 (sim_pnl_pct trend entry_price exit_price),
             result := sim_result trend shares entry_price exit_price }

/-- `run_simulation`: the day loop `for d in range(MIN_LOOKBACK, n - 1)`.
The `entry_idx >= n` guard of the source cannot fire since `d ≤ n - 2`. -/
def run_simulation (symbol : String) (df : List Bar) (stratName : String)
    (gen : List Bar → Option Signal) (shares : ℚ) : List TradeRecord :=
  ((List.range (df.length - 1 - MIN_LOOKBACK)).map (· + MIN_LOOKBACK)).filterMap
    (sim_day symbol stratName gen shares df)

/-! ### Position lifecycle tracker (positions.py) -/

/-- One row of OPEN_POSITIONS.csv; `Option` fields embed empty cells / NaN. -/
structure Position where
  symbol : String
  strategy : String
  signal_date : Option ℤ
  trend : String
  recommended_entry : Option ℚ
  target : Option ℚ
  stoploss : Option ℚ
  t_plus : ℕ
  entry_date : Option ℤ
  entry_price : Option ℚ
  expected_exit_date : Option ℤ
  exit_date : Option ℤ
  exit_price : Option ℚ
  exit_reason : Option String
  pnl_pct : Option ℚ
  status : String
deriving DecidableEq, Repr

/-- The `elif` stop check for a Tang position (positions.py lines 150-151). -/
def pos_sl_check_up (stoploss : Option ℚ) (low : ℚ) : Option (ℚ × String) :=
  match stoploss with
  | some s => if low ≤ s then some (s, "SL") else none
  | none => none

/-- The `elif` stop check for a Giam position (positions.py lines 155-156). -/
def pos_sl_check_down (stoploss : Option ℚ) (high : ℚ) : Option (ℚ × String) :=
  match stoploss with
  | some s => if s ≤ high then some (s, "SL") else none
  | none => none

/-- The per-bar exit decision of `update_positions` (positions.py lines
147-156): target checked before stop, direction-dependent; any other trend
gets no TP/SL check. -/
def pos_exit_decision (trend : String) (target stoploss : Option ℚ) (high low : ℚ) :
    Option (ℚ × String) :=
  if trend = "Tang" then
    match target with
    | some t => if t ≤ high then some (t, "TP") else pos_sl_check_up stoploss low
    | none => pos_sl_check_up stoploss low
  else if trend = "Giam" then
    match target with
    | some t => if low ≤ t then some (t, "TP") else pos_sl_check_down stoploss high
    | none => pos_sl_check_down stoploss high
  else none

/-- T+ expiry of `update_positions` (positions.py lines 159-162): only when no
TP/SL fired and today has reached the expected exit date. -/
def pos_apply_expiry (dec : Option (ℚ × String)) (expected : Option ℤ) (today : ℤ)
    (close : ℚ) : Option (ℚ × String) :=
  match dec with
  | some e => some e
  | none =>
    match expected with
    | some x => if x ≤ today then some (close, "T+ expire") else none
    | none => none

/-- Percent P&L on close (positions.py lines 169-174). -/
def pos_pnl_pct (trend : String) (entry_price exit_price : ℚ) : ℚ :=
  if trend = "Tang" then round4 ((exit_price - entry_price) / entry_price * 100)
  else round4 ((entry_price - exit_price) / entry_price * 100)

/-- The body of the per-row loop of `update_positions` (positions.py lines
122-181): step 1 fills a pending row whose entry date is today, step 2 checks
exits on an open row.  Returns the updated row and whether it was closed by
this call.  Rows not matching the symbol / pending-or-open mask are untouched.
The `entry_price and entry_price > 0` truthiness guard keeps `pnl_pct`
unset when no positive fill price is recorded. -/
def update_one (today : ℤ) (symbol : String) (bar : Bar) (p : Position) :
    Position × Bool :=
  if p.symbol = symbol ∧ (p.status = "pending" ∨ p.status = "open") then
    let p1 := if p.status = "pending" ∧ p.entry_date = some today then
        { p with entry_price := some bar.open_, status := "open" }
      else p
    if p1.status = "open" then
      match pos_apply_expiry
          (pos_exit_decision p1.trend p1.target p1.stoploss bar.high bar.low)
          p1.expected_exit_date today bar.close with
      | some e =>
        let pnl := match p1.entry_price with
          | some ep => if 0 < ep then some (pos_pnl_pct p1.trend ep e.1) else p1.pnl_pct
          | none => p1.pnl_pct
        ({ p1 with exit_date := some today, exit_price := some e.1,
                   exit_reason := some e.2, pnl_pct := pnl, status := "closed" }, true)
      | none => (p1, false)
    else (p1, false)
  else (p, false)

/-- `update_positions`: apply the row update across the table; the second
component is the batch of rows closed by this call. -/
def update_positions (today : ℤ) (symbol : String) (bar : Bar) (ps : List Position) :
    List Position × List Position :=
  (ps.map (fun p => (update_one today symbol bar p).1),
   ps.filterMap (fun p =>
     let r := update_one today symbol bar p
     if r.2 then some r.1 else none))

/-- `next_trading_date`: closed form of the weekend-skip loop (at most two
increments are ever needed). -/
def next_trading_date (d : ℤ) : ℤ :=
  if (d + 1) % 7 = 5 then d + 3
  else if (d + 1) % 7 = 6 then d + 2
  else d + 1

/-- `_add_trading_days`. -/
def add_trading_days (d : ℤ) : ℕ → ℤ
  | 0 => d
  | n + 1 => add_trading_days (next_trading_date d) n

/-- The duplicate-guard predicate of `add_signal` (positions.py lines
205-209); rows inserted by `add_signal` always carry their signal date. -/
def is_duplicate (symbol strategy : String) (signal_date : ℤ) (p : Position) : Bool :=
  decide (p.symbol = symbol ∧ p.strategy = strategy ∧ p.signal_date = some signal_date)

/-- `add_signal` (positions.py lines 186-248): skip Di_Ngang, skip duplicates,
otherwise append a fresh pending row. -/
def add_signal (symbol strategy : String) (signal_date : ℤ) (signal : Signal)
    (today_close : ℚ) (ps : List Position) : List Position :=
  if signal.trend = "Di_Ngang" then ps
  else if ps.any (is_duplicate symbol strategy signal_date) then ps
  else
    let entry_date := next_trading_date signal_date
    let expected := add_trading_days entry_date signal.t_plus
    let recommended := if signal.trend = "Tang" then round2 (today_close * (1001/1000))
      else round2 (today_close * (999/1000))
    ps ++ [{ symbol := symbol, strategy := strategy, signal_date := some signal_date,
             trend := signal.trend, recommended_entry := some recommended,
             target := some signal.target, stoploss := some signal.stoploss,
             t_plus := signal.t_plus, entry_date := some entry_date,
             entry_price := none, expected_exit_date := some expected,
             exit_date := none, exit_price := none, exit_reason := none,
             pnl_pct := none, status := "pending" }]

/-- Rank of a status in the pending → open → closed lifecycle. -/
def statusRank (s : String) : ℕ :=
  if s = "closed" then 2 else if s = "open" then 1 else 0

/-! ### Feature engine (technical_analysis.py) -/

def SMA_PERIOD : ℕ := 20

def SWING_DETECTION_WINDOW : ℕ := 5

def FIB_PROXIMITY_PCT : ℚ := 15/1000

def FIB_LEVELS : List ℚ := [0, 236/1000, 382/1000, 1/2, 618/1000, 786/1000, 1]

/-- The dict returned by `technical_analysis.analyze`; `Option` fields embed
the `None` values a short history produces. -/
structure Analysis where
  close : ℚ
  pct_change : ℚ
  sma20 : Option ℚ
  price_vs_sma : String
  volume : ℚ
  volume_sma20 : Option ℚ
  volume_spike : Bool
  swing_high : ℚ
  swing_low : ℚ
  fib_levels : List (ℚ × ℚ)
  nearest_support : ℚ
  nearest_resistance : ℚ
  price_at_fib_support : Bool
  price_at_fib_resistance : Bool
deriving DecidableEq, Repr

/-- `_find_swings`: indices whose high (resp. low) is the extremum of its
centered ±W window; the loop runs over `range(W, n - W)`, within which the
window is the full slice of width `2W + 1`. -/
def find_swings (highs lows : List ℚ) (n W : ℕ) : List ℕ × List ℕ :=
  (((List.range n).filter (fun i => decide (W ≤ i ∧ i < n - W))).filter (fun i =>
      decide (highs.getD i 0 = listMax ((highs.drop (i - W)).take (2 * W + 1)))),
   ((List.range n).filter (fun i => decide (W ≤ i ∧ i < n - W))).filter (fun i =>
      decide (lows.getD i 0 = listMin ((lows.drop (i - W)).take (2 * W + 1)))))

/-- Python `max(idxs, key=lambda i: vals[i])`: the first index attaining the
maximal value. -/
def argmaxBy (vals : List ℚ) (idxs : List ℕ) : ℕ :=
  match idxs with
  | [] => 0
  | i :: rest => rest.foldl (fun b j => if vals.getD b 0 < vals.getD j 0 then j else b) i

/-- Python `min(idxs, key=lambda i: vals[i])`: the first index attaining the
minimal value. -/
def argminBy (vals : List ℚ) (idxs : List ℕ) : ℕ :=
  match idxs with
  | [] => 0
  | i :: rest => rest.foldl (fun b j => if vals.getD j 0 < vals.getD b 0 then j else b) i

/-- Python `max` over a list of naturals (only applied nonempty below). -/
def listMaxNat (l : List ℕ) : ℕ := l.foldl max 0

/-- `_detect_swing_high_low`.  The `date.today() - 6 months` cutoff depends on
the wall clock, so it is passed in as the `cutoff` parameter.  Returns the
swing price pair; the index pair the source also returns is ignored by
`analyze` and omitted here.  Fallback ladder: W=5 swings, then W=3, then a
rolling max/min over the last `min(60, n)` bars. -/
def detect_swing_high_low (cutoff : ℤ) (df : List Bar) (close : ℚ) : ℚ × ℚ :=
  let sub0 := df.filter (fun b => decide (cutoff ≤ b.date))
  let sub := if sub0.length < 10 then df else sub0
  let highs := sub.map Bar.high
  let lows := sub.map Bar.low
  let n := sub.length
  let p5 := find_swings highs lows n SWING_DETECTION_WINDOW
  let p3 := find_swings highs lows n 3
  let chosen := if p5.1 ≠ [] ∧ p5.2 ≠ [] then p5 else p3
  if chosen.1 = [] ∨ chosen.2 = [] then
    let w := min 60 n
    (listMax (highs.drop (n - w)), listMin (lows.drop (n - w)))
  else
    let mid := mean ((sub.map Bar.close).drop (n - min 20 n))
    if mid ≤ close then
      let latest_low_i := listMaxNat chosen.2
      let cand := chosen.1.filter (fun i => decide (latest_low_i < i))
      let cand' := if cand = [] then chosen.1 else cand
      (highs.getD (argmaxBy highs cand') 0, lows.getD latest_low_i 0)
    else
      let latest_high_i := listMaxNat chosen.1
      let cand := chosen.2.filter (fun i => decide (latest_high_i < i))
      let cand' := if cand = [] then chosen.2 else cand
      (highs.getD latest_high_i 0, lows.getD (argminBy lows cand') 0)

/-- `_check_proximity`; as in the source the division is by the signed level
(guarded only against a zero level). -/
def check_proximity (close level : ℚ) : Bool :=
  if level = 0 then false else decide (absQ (close - level) / level ≤ FIB_PROXIMITY_PCT)

/-- `technical_analysis.analyze`.  `none` embeds the IndexError that
`df.iloc[-1]` raises on an empty frame; every other input produces a full
snapshot (the SMA fields degrade to `none` below 20 bars).  The `pandas_ta`
and rolling-fallback paths of `_compute_sma` agree on the 20-bar mean. -/
def analyze (cutoff : ℤ) (df : List Bar) : Option Analysis :=
  match df.getLast? with
  | none => none
  | some last =>
    let prev := if 2 ≤ df.length then df.getD (df.length - 2) defaultBar else last
    let close := last.close
    let prev_close := prev.close
    let pct_change :=
      if prev_close ≠ 0 then round2 ((close - prev_close) / prev_close * 100) else 0
    let sma20 := rollingMeanLast SMA_PERIOD 0 (df.map Bar.close)
    let price_vs_sma := match sma20 with
      | none => "unknown"
      | some s => if s < close then "above" else "below"
    let volume := last.volume
    let vol_sma := rollingMeanLast SMA_PERIOD 0 (df.map Bar.volume)
    let volume_spike := match vol_sma with
      | none => false
      | some v => decide (¬ v = 0 ∧ v * (12/10) < volume)
    let sw := detect_swing_high_low cutoff df close
    let fib := FIB_LEVELS.map (fun r => (r, round2 (sw.1 - r * (sw.1 - sw.2))))
    let prices := fib.map (fun x => x.2)
    let below := prices.filter (fun p => decide (p < close))
    let above := prices.filter (fun p => decide (close < p))
    let support := if below = [] then listMin prices else listMax below
    let resistance := if above = [] then listMax prices else listMin above
    some { close := close, pct_change := pct_change, sma20 := sma20,
           price_vs_sma := price_vs_sma, volume := volume, volume_sma20 := vol_sma,
           volume_spike := volume_spike, swing_high := sw.1, swing_low := sw.2,
           fib_levels := fib, nearest_support := support,
           nearest_resistance := resistance,
           price_at_fib_support := check_proximity close support,
           price_at_fib_resistance := check_proximity close resistance }

/-! ### Concrete inputs used by witnesses and counterexamples -/

/-- A flat one-day bar. -/
def wbar1 : Bar :=
  { date := 0, open_ := 100, high := 100, low := 100, close := 100, volume := 1000 }

/-- A later bar at a different price level. -/
def wbar2 : Bar :=
  { date := 1, open_ := 200, high := 200, low := 200, close := 200, volume := 1000 }

/-- A 55-bar series on which the Bollinger strategy confirms a Tang reversal
while the last close already sits above the middle band: the last 20-bar
window has mean 100 and sample standard deviation exactly 1, bar 53's low of 0
pierces the prior lower band, and the close of 100.5 is back inside while the
50-bar average is flat-to-rising.  Written as an explicit literal list so that
it evaluates shallowly. -/
def c3bars : List Bar := [
  ⟨0, 100, 100, 100, 100, 1000⟩,
  ⟨1, 100, 100, 100, 100, 1000⟩,
  ⟨2, 100, 100, 100, 100, 1000⟩,
  ⟨3, 100, 100, 100, 100, 1000⟩,
  ⟨4, 100, 100, 100, 100, 1000⟩,
  ⟨5, 100, 100, 100, 100, 1000⟩,
  ⟨6, 100, 100, 100, 100, 1000⟩,
  ⟨7, 100, 100, 100, 100, 1000⟩,
  ⟨8, 100, 100, 100, 100, 1000⟩,
  ⟨9, 100, 100, 100, 100, 1000⟩,
  ⟨10, 100, 100, 100, 100, 1000⟩,
  ⟨11, 100, 100, 100, 100, 1000⟩,
  ⟨12, 100, 100, 100, 100, 1000⟩,
  ⟨13, 100, 100, 100, 100, 1000⟩,
  ⟨14, 100, 100, 100, 100, 1000⟩,
  ⟨15, 100, 100, 100, 100, 1000⟩,
  ⟨16, 100, 100, 100, 100, 1000⟩,
  ⟨17, 100, 100, 100, 100, 1000⟩,
  ⟨18, 100, 100, 100, 100, 1000⟩,
  ⟨19, 100, 100, 100, 100, 1000⟩,
  ⟨20, 100, 100, 100, 100, 1000⟩,
  ⟨21, 100, 100, 100, 100, 1000⟩,
  ⟨22, 100, 100, 100, 100, 1000⟩,
  ⟨23, 100, 100, 100, 100, 1000⟩,
  ⟨24, 100, 100, 100, 100, 1000⟩,
  ⟨25, 100, 100, 100, 100, 1000⟩,
  ⟨26, 100, 100, 100, 100, 1000⟩,
  ⟨27, 100, 100, 100, 100, 1000⟩,
  ⟨28, 100, 100, 100, 100, 1000⟩,
  ⟨29, 100, 100, 100, 100, 1000⟩,
  ⟨30, 100, 100, 100, 100, 1000⟩,
  ⟨31, 100, 100, 100, 100, 1000⟩,
  ⟨32, 100, 100, 100, 100, 1000⟩,
  ⟨33, 100, 100, 100, 100, 1000⟩,
  ⟨34, 100, 201/2, 201/2, 201/2, 1000⟩,
  ⟨35, 100, 103, 103, 103, 1000⟩,
  ⟨36, 100, 98, 98, 98, 1000⟩,
  ⟨37, 100, 99, 99, 99, 1000⟩,
  ⟨38, 100, 203/2, 203/2, 203/2, 1000⟩,
  ⟨39, 100, 197/2, 197/2, 197/2, 1000⟩,
  ⟨40, 100, 199/2, 199/2, 199/2, 1000⟩,
  ⟨41, 100, 100, 100, 100, 1000⟩,
  ⟨42, 100, 100, 100, 100, 1000⟩,
  ⟨43, 100, 100, 100, 100, 1000⟩,
  ⟨44, 100, 100, 100, 100, 1000⟩,
  ⟨45, 100, 100, 100, 100, 1000⟩,
  ⟨46, 100, 100, 100, 100, 1000⟩,
  ⟨47, 100, 100, 100, 100, 1000⟩,
  ⟨48, 100, 100, 100, 100, 1000⟩,
  ⟨49, 100, 100, 100, 100, 1000⟩,
  ⟨50, 100, 100, 100, 100, 1000⟩,
  ⟨51, 100, 100, 100, 100, 1000⟩,
  ⟨52, 100, 100, 100, 100, 1000⟩,
  ⟨53, 100, 100, 0, 100, 1000⟩,
  ⟨54, 100, 201/2, 201/2, 201/2, 1000⟩]

/-- The 63-bar breakout scenario: day 60 closes at 110 above the 20-day high
of 101 on double volume with a rising 20-bar average; day 61 opens at the
signal close (fill = close); day 62's high of 120 reaches the target.  Day
61's own trade is discarded by the simulator's non-positive-fill guard
(day 62 has open 0), leaving exactly one trade record. -/
def c7bars : List Bar := [
  ⟨0, 100, 100, 100, 100, 1000⟩,
  ⟨1, 100, 100, 100, 100, 1000⟩,
  ⟨2, 100, 100, 100, 100, 1000⟩,
  ⟨3, 100, 100, 100, 100, 1000⟩,
  ⟨4, 100, 100, 100, 100, 1000⟩,
  ⟨5, 100, 100, 100, 100, 1000⟩,
  ⟨6, 100, 100, 100, 100, 1000⟩,
  ⟨7, 100, 100, 100, 100, 1000⟩,
  ⟨8, 100, 100, 100, 100, 1000⟩,
  ⟨9, 100, 100, 100, 100, 1000⟩,
  ⟨10, 100, 100, 100, 100, 1000⟩,
  ⟨11, 100, 100, 100, 100, 1000⟩,
  ⟨12, 100, 100, 100, 100, 1000⟩,
  ⟨13, 100, 100, 100, 100, 1000⟩,
  ⟨14, 100, 100, 100, 100, 1000⟩,
  ⟨15, 100, 100, 100, 100, 1000⟩,
  ⟨16, 100, 100, 100, 100, 1000⟩,
  ⟨17, 100, 100, 100, 100, 1000⟩,
  ⟨18, 100, 100, 100, 100, 1000⟩,
  ⟨19, 100, 100, 100, 100, 1000⟩,
  ⟨20, 100, 100, 100, 100, 1000⟩,
  ⟨21, 100, 100, 100, 100, 1000⟩,
  ⟨22, 100, 100, 100, 100, 1000⟩,
  ⟨23, 100, 100, 100, 100, 1000⟩,
  ⟨24, 100, 100, 100, 100, 1000⟩,
  ⟨25, 100, 100, 100, 100, 1000⟩,
  ⟨26, 100, 100, 100, 100, 1000⟩,
  ⟨27, 100, 100, 100, 100, 1000⟩,
  ⟨28, 100, 100, 100, 100, 1000⟩,
  ⟨29, 100, 100, 100, 100, 1000⟩,
  ⟨30, 100, 100, 100, 100, 1000⟩,
  ⟨31, 100, 100, 100, 100, 1000⟩,
  ⟨32, 100, 100, 100, 100, 1000⟩,
  ⟨33, 100, 100, 100, 100, 1000⟩,
  ⟨34, 100, 100, 100, 100, 1000⟩,
  ⟨35, 100, 100, 100, 100, 1000⟩,
  ⟨36, 100, 100, 100, 100, 1000⟩,
  ⟨37, 100, 100, 100, 100, 1000⟩,
  ⟨38, 100, 100, 100, 100, 1000⟩,
  ⟨39, 100, 100, 100, 100, 1000⟩,
  ⟨40, 100, 100, 100, 100, 1000⟩,
  ⟨41, 100, 100, 100, 100, 1000⟩,
  ⟨42, 100, 100, 100, 100, 1000⟩,
  ⟨43, 100, 100, 100, 100, 1000⟩,
  ⟨44, 100, 100, 100, 100, 1000⟩,
  ⟨45, 100, 100, 100, 100, 1000⟩,
  ⟨46, 100, 100, 100, 100, 1000⟩,
  ⟨47, 100, 100, 100, 100, 1000⟩,
  ⟨48, 100, 100, 100, 100, 1000⟩,
  ⟨49, 100, 100, 100, 100, 1000⟩,
  ⟨50, 100, 100, 100, 100, 1000⟩,
  ⟨51, 100, 100, 100, 100, 1000⟩,
  ⟨52, 100, 100, 100, 100, 1000⟩,
  ⟨53, 100, 100, 100, 100, 1000⟩,
  ⟨54, 100, 100, 100, 100, 1000⟩,
  ⟨55, 100, 100, 100, 100, 1000⟩,
  ⟨56, 100, 101, 101, 101, 1000⟩,
  ⟨57, 100, 101, 101, 101, 1000⟩,
  ⟨58, 100, 101, 101, 101, 1000⟩,
  ⟨59, 100, 101, 101, 101, 1000⟩,
  ⟨60, 100, 110, 110, 110, 2000⟩,
  ⟨61, 110, 110, 110, 110, 1000⟩,
  ⟨62, 0, 120, 110, 118, 1000⟩]

/-- The signal the breakout scenario fires on day 60. -/
def c7sig : Signal :=
  { trend := "Tang", target := 1177/10, stoploss := 1067/10, rr_ratio := 233/100,
    t_plus := 5 }

/-- The single trade record the breakout scenario produces. -/
def c7record : TradeRecord :=
  { symbol := "AAA", strategy := "Breakout", signal_date := 60, entry_date := 61,
    exit_date := 62, trend := "Tang", entry_price := 110, target := 1177/10,
    stoploss := 1067/10, t_plus := 5, exit_price := 1177/10, exit_reason := "TP",
    shares := 100, pnl := 770, pnl_pct := 7, result := "Win" }

/-- A 12-bar series (well below the 20-bar SMA period). -/
def c9bars : List Bar := [
  ⟨0, 100, 100, 90, 100, 1000⟩,
  ⟨1, 100, 100, 90, 100, 1000⟩,
  ⟨2, 100, 100, 90, 100, 1000⟩,
  ⟨3, 100, 100, 90, 100, 1000⟩,
  ⟨4, 100, 100, 90, 100, 1000⟩,
  ⟨5, 100, 100, 90, 100, 1000⟩,
  ⟨6, 100, 100, 90, 100, 1000⟩,
  ⟨7, 100, 100, 90, 100, 1000⟩,
  ⟨8, 100, 100, 90, 100, 1000⟩,
  ⟨9, 100, 100, 90, 100, 1000⟩,
  ⟨10, 100, 100, 90, 100, 1000⟩,
  ⟨11, 100, 100, 90, 100, 1000⟩]

/-- A closed position used to exercise the closed-row no-op. -/
def wposClosed : Position :=
  { symbol := "AAA", strategy := "Breakout", signal_date := some 2, trend := "Tang",
    recommended_entry := some 100, target := some 107, stoploss := some 97,
    t_plus := 5, entry_date := some 3, entry_price := some 100,
    expected_exit_date := some 10, exit_date := some 4, exit_price := some 107,
    exit_reason := some "TP", pnl_pct := some 7, status := "closed" }

/-- A pending position whose entry date has not been matched. -/
def wposPending : Position :=
  { symbol := "AAA", strategy := "Breakout", signal_date := some 2, trend := "Tang",
    recommended_entry := some 100, target := some 107, stoploss := some 97,
    t_plus := 5, entry_date := some 3, entry_price := none,
    expected_exit_date := some 10, exit_date := none, exit_price := none,
    exit_reason := none, pnl_pct := none, status := "pending" }

/-- A directional signal used to exercise `add_signal`. -/
def wsignal : Signal :=
  { trend := "Tang", target := 107, stoploss := 97, rr_ratio := 233/100, t_plus := 5 }

/-! ### Rounding lemmas -/

theorem ratFloor_eq (q : ℚ) : Rat.floor q = ⌊q⌋ :=
  le_antisymm (Int.le_floor.mpr (Rat.le_floor.mp (le_refl _)))
    (Rat.le_floor.mpr (Int.floor_le q))

theorem intToQ_eq (n : ℤ) : intToQ n = (n : ℚ) := by
  unfold intToQ
  exact Rat.divInt_one n

theorem rhe_abs_le (q : ℚ) : |(rhe q : ℚ) - q| ≤ 1/2 := by
  have h0 : (⌊q⌋ : ℚ) ≤ q := Int.floor_le q
  have h1 : q < ⌊q⌋ + 1 := Int.lt_floor_add_one q
  unfold rhe
  rw [ratFloor_eq]
  simp only [intToQ_eq]
  split
  · next h => rw [abs_le]; constructor <;> linarith
  · next h =>
    split
    · next h2 => rw [abs_le]; push_cast; constructor <;> linarith
    · next h2 =>
      split
      · rw [abs_le]; constructor <;> linarith
      · rw [abs_le]; push_cast; constructor <;> linarith

theorem rhe_nonneg (q : ℚ) (h : 0 ≤ q) : 0 ≤ rhe q := by
  have h0 : 0 ≤ ⌊q⌋ := Int.floor_nonneg.mpr h
  unfold rhe
  rw [ratFloor_eq]
  simp only [intToQ_eq]
  split
  · exact h0
  · split
    · omega
    · split
      · exact h0
      · omega

theorem rhe_pos_iff (q : ℚ) : 0 < rhe q ↔ 1/2 < q := by
  have h0 : (⌊q⌋ : ℚ) ≤ q := Int.floor_le q
  have h1 : q < ⌊q⌋ + 1 := Int.lt_floor_add_one q
  unfold rhe
  rw [ratFloor_eq]
  simp only [intToQ_eq]
  split
  · next h =>
    constructor
    · intro hf
      have hf' : (1 : ℚ) ≤ (⌊q⌋ : ℚ) := by exact_mod_cast hf
      linarith
    · intro hq
      have hf' : (0 : ℚ) < (⌊q⌋ : ℚ) := by linarith
      exact_mod_cast hf'
  · next h =>
    split
    · next h2 =>
      constructor
      · intro hf
        have hf' : (0 : ℤ) ≤ ⌊q⌋ := by omega
        have hf'' : (0 : ℚ) ≤ (⌊q⌋ : ℚ) := by exact_mod_cast hf'
        linarith
      · intro hq
        have hf' : (-1 : ℚ) < (⌊q⌋ : ℚ) := by linarith
        have hf'' : (-1 : ℤ) < ⌊q⌋ := by exact_mod_cast hf'
        omega
    · next h2 =>
      have hr : q - ⌊q⌋ = 1/2 := by linarith
      split
      · constructor
        · intro hf
          have hf' : (1 : ℚ) ≤ (⌊q⌋ : ℚ) := by exact_mod_cast hf
          linarith
        · intro hq
          have hf' : (0 : ℚ) < (⌊q⌋ : ℚ) := by linarith
          exact_mod_cast hf'
      · next hodd =>
        constructor
        · intro hf
          have hf' : (1 : ℤ) ≤ ⌊q⌋ := by omega
          have hf'' : (1 : ℚ) ≤ (⌊q⌋ : ℚ) := by exact_mod_cast hf'
          linarith
        · intro hq
          have hf' : (-1 : ℚ) < (⌊q⌋ : ℚ) := by linarith
          have hf'' : (-1 : ℤ) < ⌊q⌋ := by exact_mod_cast hf'
          omega

theorem round2_abs_le (q : ℚ) : |round2 q - q| ≤ 1/200 := by
  have h := rhe_abs_le (q * 100)
  unfold round2
  rw [intToQ_eq]
  rw [abs_le] at h ⊢
  constructor <;> [linarith [h.1]; linarith [h.2]]

theorem round4_pos_iff (q : ℚ) : 0 < round4 q ↔ 1/20000 < q := by
  unfold round4
  rw [intToQ_eq]
  rw [div_pos_iff]
  constructor
  · rintro (⟨ha, _⟩ | ⟨_, hb⟩)
    · have := (rhe_pos_iff (q * 10000)).mp (by exact_mod_cast ha)
      linarith
    · norm_num at hb
  · intro hq
    left
    refine ⟨?_, by norm_num⟩
    have := (rhe_pos_iff (q * 10000)).mpr (by linarith)
    exact_mod_cast this

theorem round4_nonneg (q : ℚ) (h : 0 ≤ q) : 0 ≤ round4 q := by
  unfold round4
  rw [intToQ_eq]
  have := rhe_nonneg (q * 10000) (by positivity)
  positivity

theorem lt_round2_mul (e c : ℚ) (he : 1 ≤ e) (hc : 1 + 1/100 ≤ c) :
    e < round2 (e * c) := by
  have h1 := (abs_le.mp (round2_abs_le (e * c))).1
  have h2 : e * (1 + 1/100) ≤ e * c :=
    mul_le_mul_of_nonneg_left hc (by linarith)
  nlinarith

theorem round2_mul_lt (e c : ℚ) (he : 1 ≤ e) (hc : c ≤ 1 - 1/100) :
    round2 (e * c) < e := by
  have h1 := (abs_le.mp (round2_abs_le (e * c))).2
  have h2 : e * c ≤ e * (1 - 1/100) :=
    mul_le_mul_of_nonneg_left hc (by linarith)
  nlinarith

/-! ### Claim theorems -/

/-- Claim C1 (amended): no-lookahead as truncation invariance — for every bar
series, every day index `d` inside it and any list of extra future bars, the
signal the strategies compute from the day-`d` slice of the extended series
equals the signal computed from the day-`d` slice of the original series: the
strategies never read beyond the slice they are given. -/
theorem c1_no_lookahead (bars extra : List Bar) (d : ℕ) (h : d < bars.length) :
    bollinger_generate_signal ((bars ++ extra).take (d + 1)) =
      bollinger_generate_signal (bars.take (d + 1)) ∧
    breakout_generate_signal ((bars ++ extra).take (d + 1)) =
      breakout_generate_signal (bars.take (d + 1)) := by
  have ht : (bars ++ extra).take (d + 1) = bars.take (d + 1) :=
    List.take_append_of_le_length (by omega)
  exact ⟨by rw [ht], by rw [ht]⟩

/-- Witness for C1 at a concrete one-bar series with one future bar. -/
theorem c1_no_lookahead_witness :
    0 < [wbar1].length ∧
      bollinger_generate_signal (([wbar1] ++ [wbar2]).take 1) =
        bollinger_generate_signal ([wbar1].take 1) :=
  ⟨by decide, (c1_no_lookahead [wbar1] [wbar2] 0 (by decide)).1⟩

/-- Counterexample to C1 as stated: invoking `generate_signal` on the slice
`bars[0..0]` with an extra future bar appended changes the proposal of both
strategies, because the strategies always analyse the final bar of whatever
frame they receive. -/
theorem c1_counterexample :
    bollinger_generate_signal ([wbar1] ++ [wbar2]) ≠ bollinger_generate_signal [wbar1] ∧
    breakout_generate_signal ([wbar1] ++ [wbar2]) ≠ breakout_generate_signal [wbar1] :=
  ⟨by decide, by decide⟩

/-- Claim C2: the per-bar exit rules of the simulator and of the position
tracker coincide for Tang and Giam trades — same target-before-stop
precedence (a Tang bar reaching the target exits TP even when its low also
breaches the stop, mirrored for Giam) — and both sides resolve an untouched
horizon end by exiting at the bar's close with reason "T+ expire". -/
theorem c2_exit_rule_equivalence (trend : String) (t s h l c : ℚ) (today x : ℤ)
    (htr : trend = "Tang" ∨ trend = "Giam") :
    sim_exit_decision trend t s h l = pos_exit_decision trend (some t) (some s) h l ∧
    (trend = "Tang" → t ≤ h → sim_exit_decision trend t s h l = some (t, "TP")) ∧
    (trend = "Giam" → l ≤ t → sim_exit_decision trend t s h l = some (t, "TP")) ∧
    (∀ bar : Bar, sim_resolve_exit none bar = (bar.close, "T+ expire", bar.date)) ∧
    (x ≤ today → pos_apply_expiry none (some x) today c = some (c, "T+ expire")) := by
  have hexp : x ≤ today → pos_apply_expiry none (some x) today c
      = some (c, "T+ expire") := by
    intro hx
    show (if x ≤ today then some (c, "T+ expire") else none) = some (c, "T+ expire")
    exact if_pos hx
  rcases htr with h1 | h1 <;> subst h1
  · refine ⟨rfl, ?_, ?_, fun bar => rfl, hexp⟩
    · intro _ hth
      show (if t ≤ h then some (t, "TP") else if l ≤ s then some (s, "SL") else none)
        = some (t, "TP")
      exact if_pos hth
    · intro habs
      exact absurd habs (by decide)
  · refine ⟨rfl, ?_, ?_, fun bar => rfl, hexp⟩
    · intro habs
      exact absurd habs (by decide)
    · intro _ hlt
      show (if l ≤ t then some (t, "TP") else if s ≤ h then some (s, "SL") else none)
        = some (t, "TP")
      exact if_pos hlt

/-- Witness for C2 with a Tang trade on a concrete bar. -/
theorem c2_exit_rule_equivalence_witness :
    (("Tang" : String) = "Tang" ∨ ("Tang" : String) = "Giam") ∧
      sim_exit_decision "Tang" 2 1 3 0 = pos_exit_decision "Tang" (some 2) (some 1) 3 0 :=
  ⟨Or.inl rfl, (c2_exit_rule_equivalence "Tang" 2 1 3 0 5 0 1 (Or.inl rfl)).1⟩

/-- The neutral Bollinger proposal is always sideways. -/
theorem bollinger_neutral_trend (e : ℚ) : (bollinger_neutral e).trend = "Di_Ngang" := rfl

/-- The neutral breakout proposal is always sideways. -/
theorem breakout_neutral_trend (e : ℚ) : (breakout_neutral e).trend = "Di_Ngang" := rfl

set_option maxRecDepth 3000 in
/-- Counterexample to C3 as stated: on `c3bars` the Bollinger strategy fires a
Tang proposal whose target (the middle band, 100) lies below the last close
(100.5), so `target > entryReferencePrice` fails. -/
theorem c3_counterexample :
    bollinger_generate_signal c3bars =
      some { trend := "Tang", target := 100, stoploss := 9653/100,
             rr_ratio := 13/100, t_plus := 3 } ∧
    fromLast 0 (c3bars.map Bar.close) = 201/2 ∧
    ¬ (100 : ℚ) > 201/2 := by
  refine ⟨by decide, by decide, by norm_num⟩

/-- Claim C3 (amended): for the breakout strategy, whenever the last close is
at least 1 price unit, every directional proposal has its target and stop on
the correct sides of the last close: Tang means `stop < close < target`, Giam
means `target < close < stop`.  (The Bollinger strategy gives no such
guarantee: its Tang target is the middle band, which the last close can
already exceed — see the counterexample.) -/
theorem c3_target_stop_ordering (df : List Bar) (sig : Signal)
    (hgen : breakout_generate_signal df = some sig)
    (hentry : 1 ≤ fromLast 0 (df.map Bar.close)) :
    (sig.trend = "Tang" →
      sig.stoploss < fromLast 0 (df.map Bar.close) ∧
        fromLast 0 (df.map Bar.close) < sig.target) ∧
    (sig.trend = "Giam" →
      sig.target < fromLast 0 (df.map Bar.close) ∧
        fromLast 0 (df.map Bar.close) < sig.stoploss) := by
  have hup : fromLast 0 (df.map Bar.close) <
      round2 (fromLast 0 (df.map Bar.close) * (1 + TP_PCT)) :=
    lt_round2_mul _ _ hentry (by norm_num [TP_PCT])
  have hdn : round2 (fromLast 0 (df.map Bar.close) * (1 - SL_PCT)) <
      fromLast 0 (df.map Bar.close) :=
    round2_mul_lt _ _ hentry (by norm_num [SL_PCT])
  have hdn' : round2 (fromLast 0 (df.map Bar.close) * (1 - TP_PCT)) <
      fromLast 0 (df.map Bar.close) :=
    round2_mul_lt _ _ hentry (by norm_num [TP_PCT])
  have hup' : fromLast 0 (df.map Bar.close) <
      round2 (fromLast 0 (df.map Bar.close) * (1 + SL_PCT)) :=
    lt_round2_mul _ _ hentry (by norm_num [SL_PCT])
  have hsig : sig = breakout_signal_body df := by
    unfold breakout_generate_signal at hgen
    split at hgen
    · exact absurd hgen (by simp)
    · exact (Option.some_inj.mp hgen).symm
  subst hsig
  simp only [breakout_signal_body]
  split
  · constructor <;> intro habs <;> rw [breakout_neutral_trend] at habs <;>
      exact absurd habs (by decide)
  · split
    · constructor <;> intro habs <;> rw [breakout_neutral_trend] at habs <;>
        exact absurd habs (by decide)
    · split
      · constructor <;> intro habs <;> rw [breakout_neutral_trend] at habs <;>
          exact absurd habs (by decide)
      · split
        · split
          · exact ⟨fun _ => ⟨hdn, hup⟩,
              fun habs => absurd habs ((by decide : ("Tang" : String) ≠ "Giam"))⟩
          · split
            · exact ⟨fun habs => absurd habs ((by decide : ("Giam" : String) ≠ "Tang")),
                fun _ => ⟨hdn', hup'⟩⟩
            · constructor <;> intro habs <;> rw [breakout_neutral_trend] at habs <;>
                exact absurd habs (by decide)
        · constructor <;> intro habs <;> rw [breakout_neutral_trend] at habs <;>
            exact absurd habs (by decide)

set_option maxRecDepth 3000 in
/-- Witness for C3 (amended) at the breakout scenario's day-60 history. -/
theorem c3_target_stop_ordering_witness :
    breakout_generate_signal (c7bars.take 61) = some c7sig ∧
      (1 : ℚ) ≤ fromLast 0 ((c7bars.take 61).map Bar.close) ∧
      (c7sig.stoploss < fromLast 0 ((c7bars.take 61).map Bar.close) ∧
        fromLast 0 ((c7bars.take 61).map Bar.close) < c7sig.target) :=
  ⟨by decide, by decide,
   (c3_target_stop_ordering (c7bars.take 61) c7sig (by decide)
      (by decide)).1 rfl⟩

/-- A row already closed is outside the symbol/status mask of
`update_positions`: it comes back unchanged with the closed flag unset. -/
theorem update_one_of_closed (today : ℤ) (sym : String) (bar : Bar) (p : Position)
    (h : p.status = "closed") : update_one today sym bar p = (p, false) := by
  unfold update_one
  rw [if_neg]
  rintro ⟨-, h2 | h2⟩ <;> rw [h] at h2 <;> exact absurd h2 (by decide)

/-- The closed flag comes with a closed final status and a not-yet-closed
initial status; and one call never moves a status backwards. -/
theorem update_one_spec (today : ℤ) (sym : String) (bar : Bar) (p : Position) :
    ((update_one today sym bar p).2 = true →
      (update_one today sym bar p).1.status = "closed" ∧ p.status ≠ "closed") ∧
    statusRank p.status ≤ statusRank ((update_one today sym bar p).1).status := by
  by_cases hc : p.status = "closed"
  · rw [update_one_of_closed today sym bar p hc]
    exact ⟨fun h => absurd h Bool.false_ne_true, Nat.le_refl _⟩
  · simp only [update_one]
    split
    · next hmask =>
      split
      · next hfill =>
        have h0 : statusRank p.status = 0 := by rw [hfill.1]; rfl
        rw [h0]
        split
        · split
          · exact ⟨fun _ => ⟨rfl, hc⟩, Nat.zero_le _⟩
          · exact ⟨fun h => absurd h Bool.false_ne_true, Nat.zero_le _⟩
        · exact ⟨fun h => absurd h Bool.false_ne_true, Nat.zero_le _⟩
      · split
        · next hopen =>
          split
          · refine ⟨fun _ => ⟨rfl, hc⟩, ?_⟩
            rw [hopen]
            simp [statusRank]
          · exact ⟨fun h => absurd h Bool.false_ne_true, Nat.le_refl _⟩
        · exact ⟨fun h => absurd h Bool.false_ne_true, Nat.le_refl _⟩
    · exact ⟨fun h => absurd h Bool.false_ne_true, Nat.le_refl _⟩

/-- Claim C4: a Position's status only advances along pending → open → closed,
and `update_positions` leaves an already-closed row completely untouched and
never returns it in the closed batch (each batch member was not closed before
the call and ends the call closed). -/
theorem c4_lifecycle (today : ℤ) (sym : String) (bar : Bar) (p : Position)
    (ps : List Position) :
    (p.status = "closed" → update_one today sym bar p = (p, false)) ∧
    statusRank p.status ≤ statusRank ((update_one today sym bar p).1).status ∧
    (∀ q ∈ (update_positions today sym bar ps).2,
      q.status = "closed" ∧
        ∃ p0 ∈ ps, p0.status ≠ "closed" ∧ update_one today sym bar p0 = (q, true)) := by
  refine ⟨fun h => update_one_of_closed today sym bar p h,
    (update_one_spec today sym bar p).2, ?_⟩
  intro q hq
  simp only [update_positions, List.mem_filterMap] at hq
  obtain ⟨p0, hp0, hf⟩ := hq
  by_cases hb : (update_one today sym bar p0).2 = true
  · rw [if_pos hb] at hf
    obtain rfl := Option.some_inj.mp hf
    obtain ⟨hcl, hnc⟩ := (update_one_spec today sym bar p0).1 hb
    refine ⟨hcl, p0, hp0, hnc, ?_⟩
    rw [Prod.ext_iff]
    exact ⟨rfl, hb⟩
  · rw [if_neg hb] at hf
    exact absurd hf (by simp)

/-- Witness for C4: a closed row is untouched and unflagged. -/
theorem c4_lifecycle_witness :
    (wposClosed.status = "closed") ∧
      update_one 3 "AAA" wbar1 wposClosed = (wposClosed, false) :=
  ⟨rfl, (c4_lifecycle 3 "AAA" wbar1 wposClosed []).1 rfl⟩

/-- Claim C10: `update_positions` fills a pending row only when its entry date
equals today exactly: a pending row whose entry date is anything else (earlier,
later or missing) is returned unchanged, stays pending, and is never part of
the closed batch — on this call and hence on every later call whose date never
matches. -/
theorem c10_pending_entry_date_mismatch (today : ℤ) (sym : String) (bar : Bar)
    (p : Position) (ps : List Position)
    (hp : p.status = "pending") (hd : p.entry_date ≠ some today) :
    update_one today sym bar p = (p, false) ∧
    (update_positions today sym bar (p :: ps)).1 =
      p :: (update_positions today sym bar ps).1 ∧
    (update_positions today sym bar (p :: ps)).2 = (update_positions today sym bar ps).2 := by
  have hno : ¬ (p.status = "open") := by rw [hp]; decide
  have hc1 : ¬ (p.status = "pending" ∧ p.entry_date = some today) := fun hc => hd hc.2
  have h1 : update_one today sym bar p = (p, false) := by
    simp only [update_one]
    split <;> rfl
  refine ⟨h1, ?_, ?_⟩ <;> simp [update_positions, h1]

/-- Witness for C10: a pending row whose entry date is not today is untouched. -/
theorem c10_pending_entry_date_mismatch_witness :
    (wposPending.status = "pending") ∧ wposPending.entry_date ≠ some 5 ∧
      update_one 5 "AAA" wbar1 wposPending = (wposPending, false) :=
  ⟨rfl, by decide,
   (c10_pending_entry_date_mismatch 5 "AAA" wbar1 wposPending [] rfl (by decide)).1⟩

/-- Claim C5: `add_signal` is idempotent on the (symbol, strategy, signal day)
identity key — starting from a table with no row for the key, a directional
signal added twice leaves exactly one row for the key, the second call
returning the table unchanged. -/
theorem c5_idempotent_duplicate_guard (sym strat : String) (d : ℤ) (sig : Signal)
    (c : ℚ) (ps : List Position)
    (htr : sig.trend ≠ "Di_Ngang")
    (h2 : ps.any (is_duplicate sym strat d) = false) :
    add_signal sym strat d sig c (add_signal sym strat d sig c ps) =
      add_signal sym strat d sig c ps ∧
    ((add_signal sym strat d sig c ps).filter (is_duplicate sym strat d)).length = 1 := by
  have hany : ¬ (ps.any (is_duplicate sym strat d) = true) := by
    rw [h2]; decide
  have hshape : ∃ row, add_signal sym strat d sig c ps = ps ++ [row] ∧
      is_duplicate sym strat d row = true := by
    rw [add_signal, if_neg htr, if_neg hany]
    refine ⟨_, rfl, ?_⟩
    simp [is_duplicate]
  obtain ⟨row, hrow, hdup⟩ := hshape
  have hA : (add_signal sym strat d sig c ps).any (is_duplicate sym strat d) = true := by
    rw [hrow, List.any_append, h2]
    simp [hdup]
  constructor
  · rw [add_signal, if_neg htr, if_pos hA]
  · have hnone : ∀ x ∈ ps, ¬ (is_duplicate sym strat d x = true) := by
      rw [List.any_eq_false] at h2
      exact h2
    rw [hrow, List.filter_append, List.filter_eq_nil_iff.mpr hnone]
    simp [hdup]

/-- Witness for C5 from the empty table with a concrete Tang signal. -/
theorem c5_idempotent_duplicate_guard_witness :
    (wsignal.trend ≠ "Di_Ngang") ∧
      (([] : List Position).any (is_duplicate "AAA" "Breakout" 2) = false) ∧
      ((add_signal "AAA" "Breakout" 2 wsignal 100 []).filter
        (is_duplicate "AAA" "Breakout" 2)).length = 1 :=
  ⟨by decide, rfl,
   (c5_idempotent_duplicate_guard "AAA" "Breakout" 2 wsignal 100 [] (by decide) rfl).2⟩

/-- Counterexample to C6 as stated: a closed Tang position with entry price
1000000 and exit a quarter point above closes with `pnl_pct = 0` (the percent
is rounded to 4 decimals), so `pnl_pct > 0` is not equivalent to
`exit_price > entry_price`. -/
theorem c6_counterexample :
    (0 : ℚ) < 1000000 ∧ (1000000 : ℚ) < 1000000 + 1/4 ∧
    ¬ (0 < pos_pnl_pct "Tang" 1000000 (1000000 + 1/4) ↔
        (1000000 : ℚ) < 1000000 + 1/4) := by
  refine ⟨by norm_num, by norm_num, ?_⟩
  intro hiff
  have h := hiff.mpr (by norm_num)
  have hz : pos_pnl_pct "Tang" 1000000 (1000000 + 1/4) = 0 := by decide
  rw [hz] at h
  exact absurd h (by norm_num)

/-- Claim C6 (amended): for a positive entry price the rounded percent P&L of
the tracker respects the trade direction up to the 4-decimal rounding
resolution — a positive `pnl_pct` forces a favourable move, a favourable move
forces a nonnegative `pnl_pct`, and `pnl_pct > 0` holds exactly when the raw
percent move exceeds 1/20000 — while the simulator's Win/Loss/Breakeven label
is exactly the sign of its raw `pnl`, computed as `shares × (exit − entry)`
for non-Giam trades and `shares × (entry − exit)` for Giam. -/
theorem c6_pnl_sign_round_trip (trend : String) (shares entry exitp : ℚ)
    (he : 0 < entry) :
    (trend = "Tang" →
      ((0 < pos_pnl_pct trend entry exitp → entry < exitp) ∧
       (entry < exitp → 0 ≤ pos_pnl_pct trend entry exitp) ∧
       (0 < pos_pnl_pct trend entry exitp ↔ 1/20000 < (exitp - entry) / entry * 100))) ∧
    (trend = "Giam" →
      ((0 < pos_pnl_pct trend entry exitp → exitp < entry) ∧
       (exitp < entry → 0 ≤ pos_pnl_pct trend entry exitp) ∧
       (0 < pos_pnl_pct trend entry exitp ↔ 1/20000 < (entry - exitp) / entry * 100))) ∧
    (sim_result trend shares entry exitp = "Win" ↔
      0 < sim_pnl trend shares entry exitp) ∧
    (sim_result trend shares entry exitp = "Loss" ↔
      sim_pnl trend shares entry exitp < 0) ∧
    (sim_result trend shares entry exitp = "Breakeven" ↔
      sim_pnl trend shares entry exitp = 0) ∧
    (trend ≠ "Giam" → sim_pnl trend shares entry exitp = shares * (exitp - entry)) ∧
    (trend = "Giam" → sim_pnl trend shares entry exitp = shares * (entry - exitp)) := by
  have hup : ∀ a b : ℚ, 0 < entry → a < b →
      0 ≤ round4 ((b - a) / entry * 100) := by
    intro a b hE hab
    refine round4_nonneg _ ?_
    have hba : 0 < b - a := by linarith
    positivity
  have hiff : ∀ a b : ℚ, (0 < round4 ((b - a) / entry * 100) ↔
      1/20000 < (b - a) / entry * 100) := fun a b => round4_pos_iff _
  have hmove : ∀ a b : ℚ, 0 < round4 ((b - a) / entry * 100) → a < b := by
    intro a b hpos
    have h1 := (round4_pos_iff _).mp hpos
    by_contra hle
    push_neg at hle
    have hba : b - a ≤ 0 := by linarith
    have : (b - a) / entry * 100 ≤ 0 := by
      have : (b - a) / entry ≤ 0 := div_nonpos_of_nonpos_of_nonneg hba (le_of_lt he)
      linarith
    linarith
  refine ⟨?_, ?_, ?_, ?_, ?_, ?_, ?_⟩
  · intro ht
    subst ht
    unfold pos_pnl_pct
    rw [if_pos rfl]
    exact ⟨hmove entry exitp, fun h => hup entry exitp he h, hiff entry exitp⟩
  · intro ht
    subst ht
    unfold pos_pnl_pct
    rw [if_neg (by decide)]
    exact ⟨hmove exitp entry, fun h => hup exitp entry he h, hiff exitp entry⟩
  · unfold sim_result
    split
    · next h => simp [h]
    · next h =>
      split
      · next h2 => constructor <;> intro habs <;> [exact absurd habs (by decide); linarith]
      · next h2 => constructor <;> intro habs <;> [exact absurd habs (by decide); linarith]
  · unfold sim_result
    split
    · next h => constructor <;> intro habs <;> [exact absurd habs (by decide); linarith]
    · next h =>
      split
      · next h2 => simp [h2]
      · next h2 => constructor <;> intro habs <;> [exact absurd habs (by decide); linarith]
  · unfold sim_result
    split
    · next h => constructor <;> intro habs <;> [exact absurd habs (by decide); linarith]
    · next h =>
      split
      · next h2 => constructor <;> intro habs <;> [exact absurd habs (by decide); linarith]
      · next h2 => constructor <;> intro _ <;> [linarith; rfl]
  · intro hng
    unfold sim_pnl
    rw [if_neg (fun h => hng h)]
  · intro hg
    unfold sim_pnl
    rw [if_pos hg]

/-- Witness for C6 (amended) at a concrete winning Tang trade. -/
theorem c6_pnl_sign_round_trip_witness :
    (0 : ℚ) < 100 ∧
      ((0 < pos_pnl_pct "Tang" 100 107 → (100 : ℚ) < 107) ∧
       ((100 : ℚ) < 107 → 0 ≤ pos_pnl_pct "Tang" 100 107) ∧
       (0 < pos_pnl_pct "Tang" 100 107 ↔ 1/20000 < ((107 : ℚ) - 100) / 100 * 100)) :=
  ⟨by norm_num, (c6_pnl_sign_round_trip "Tang" 100 100 107 (by norm_num)).1 rfl⟩

set_option maxRecDepth 3000 in
/-- Claim C7: concrete upward-breakout scenario.  On the series `c7bars`, the
day-60 history fires every breakout condition — the last close is at or above
the maximum high of the prior 20 bars, the current volume is at least 1.5× its
20-bar average, and the 20-bar mean is rising — and the strategy returns Tang
with target `round2(close × 1.07)`, stoploss `round2(close × 0.97)` and
rr_ratio 2.33; simulating the whole series fills at the next bar's open (which
equals the signal close) and exits on the bar whose high reaches the target,
producing exactly one TradeRecord, with exit reason "TP" and positive pnl. -/
theorem c7_breakout_scenario :
    breakout_generate_signal (c7bars.take 61) = some c7sig ∧
    (listMax ((((c7bars.take 61).map Bar.high).take 60).drop 40) ≤
        fromLast 0 ((c7bars.take 61).map Bar.close) ∧
      rollingMeanLast 20 0 ((c7bars.take 61).map Bar.volume) = some 1050 ∧
      (1050 : ℚ) * (3/2) ≤ fromLast 0 ((c7bars.take 61).map Bar.volume) ∧
      rollingMeanLast 20 0 ((c7bars.take 61).map Bar.close) = some (1007/10) ∧
      rollingMeanLast 20 5 ((c7bars.take 61).map Bar.close) = some 100) ∧
    (c7sig.trend = "Tang" ∧
      c7sig.target = round2 (fromLast 0 ((c7bars.take 61).map Bar.close) * (1 + TP_PCT)) ∧
      c7sig.stoploss = round2 (fromLast 0 ((c7bars.take 61).map Bar.close) * (1 - SL_PCT)) ∧
      c7sig.rr_ratio = 233/100) ∧
    run_simulation "AAA" c7bars "Breakout" breakout_generate_signal 100 = [c7record] ∧
    (c7record.entry_price = fromLast 0 ((c7bars.take 61).map Bar.close) ∧
      c7record.exit_reason = "TP" ∧ 0 < c7record.pnl ∧ c7record.result = "Win") := by
  refine ⟨by decide, by decide, by decide, by decide, by decide⟩

set_option maxRecDepth 3000 in
/-- Counterexample to C8 as stated: the neutral band is not symmetric.  At
entry 100 the Bollinger neutral proposal is +2 above and −1 below the last
close, and the breakout neutral proposal is +7 above and −3 below it. -/
theorem c8_counterexample :
    (bollinger_neutral 100).trend = "Di_Ngang" ∧
    (bollinger_neutral 100).target - 100 = 2 ∧
    100 - (bollinger_neutral 100).stoploss = 1 ∧
    (breakout_neutral 100).target - 100 = 7 ∧
    100 - (breakout_neutral 100).stoploss = 3 ∧
    ¬ ((bollinger_neutral 100).target - 100 = 100 - (bollinger_neutral 100).stoploss) ∧
    ¬ ((breakout_neutral 100).target - 100 = 100 - (breakout_neutral 100).stoploss) := by
  decide

/-- Claim C8 (amended): in the neutral case each strategy still returns a
well-formed Di_Ngang proposal whose target and stoploss straddle the entry
reference price (for any last close of at least one price unit), and any frame
shorter than the strategy's data minimum (52 bars for Bollinger, 25 for
Breakout) is routed to this neutral proposal built on the frame's last close —
but the default band is asymmetric, not symmetric: Bollinger uses +2 % above
and −1 % below, Breakout +7 % above and −3 % below, each side rounded to two
decimals. -/
theorem c8_neutral_band (e : ℚ) (he : 1 ≤ e) :
    ((bollinger_neutral e).trend = "Di_Ngang" ∧
      (bollinger_neutral e).target = round2 (e * (102/100)) ∧
      (bollinger_neutral e).stoploss = round2 (e * (99/100)) ∧
      (bollinger_neutral e).stoploss < e ∧ e < (bollinger_neutral e).target) ∧
    ((breakout_neutral e).trend = "Di_Ngang" ∧
      (breakout_neutral e).target = round2 (e * (1 + TP_PCT)) ∧
      (breakout_neutral e).stoploss = round2 (e * (1 - SL_PCT)) ∧
      (breakout_neutral e).stoploss < e ∧ e < (breakout_neutral e).target) ∧
    (∀ df : List Bar, df ≠ [] → df.length < 52 →
      bollinger_generate_signal df =
        some (bollinger_neutral (fromLast 0 (df.map Bar.close)))) ∧
    (∀ df : List Bar, df ≠ [] → df.length < N_PERIOD + 5 →
      breakout_generate_signal df =
        some (breakout_neutral (fromLast 0 (df.map Bar.close)))) := by
  refine ⟨⟨rfl, rfl, rfl, ?_, ?_⟩, ⟨rfl, rfl, rfl, ?_, ?_⟩, ?_, ?_⟩
  · exact round2_mul_lt e (99/100) he (by norm_num)
  · exact lt_round2_mul e (102/100) he (by norm_num)
  · exact round2_mul_lt e (1 - SL_PCT) he (by norm_num [SL_PCT])
  · exact lt_round2_mul e (1 + TP_PCT) he (by norm_num [TP_PCT])
  · intro df hne h52
    have h0 : ¬ df.length = 0 := by
      simpa [List.length_eq_zero] using hne
    rw [bollinger_generate_signal, if_neg h0]
    simp only [bollinger_signal_body]
    rw [if_pos h52]
  · intro df hne h25
    have h0 : ¬ df.length = 0 := by
      simpa [List.length_eq_zero] using hne
    rw [breakout_generate_signal, if_neg h0]
    simp only [breakout_signal_body]
    rw [if_pos h25]

/-- Witness for C8 (amended) at entry 100. -/
theorem c8_neutral_band_witness :
    (1 : ℚ) ≤ 100 ∧
      ((bollinger_neutral 100).stoploss < 100 ∧ 100 < (bollinger_neutral 100).target) :=
  ⟨by norm_num, (c8_neutral_band 100 (by norm_num)).1.2.2.2⟩

/-- A rolling mean over a window longer than the series is empty (pandas
`rolling(w).mean()` is NaN before `w` observations). -/
theorem rollingMeanLast_short (w off : ℕ) (l : List ℚ) (h : l.length < w + off) :
    rollingMeanLast w off l = none := by
  simp only [rollingMeanLast, lastWindow]
  rw [if_neg (by omega)]
  rfl

set_option maxRecDepth 3000 in
/-- Counterexample to C9 as stated: on a 12-bar series — fewer bars than the
20-bar SMA period — `analyze` still returns a normal snapshot. -/
theorem c9_counterexample :
    c9bars.length < SMA_PERIOD ∧ (analyze 0 c9bars).isSome = true := by
  refine ⟨by decide, by decide⟩

/-- Claim C9 (amended): `analyze` does not fail on frames shorter than the
20-bar SMA period — on every nonempty series it returns a snapshot, leaving
the 20-bar mean empty (`sma20 = none`) when fewer than 20 bars are present;
it returns `none` only for the empty frame. -/
theorem c9_insufficient_data (cutoff : ℤ) (df : List Bar) (h : df ≠ []) :
    (∃ a, analyze cutoff df = some a ∧
      (df.length < SMA_PERIOD → a.sma20 = none)) ∧
    analyze cutoff ([] : List Bar) = none := by
  refine ⟨?_, rfl⟩
  cases hx : df.getLast? with
  | none => exact absurd (List.getLast?_eq_none_iff.mp hx) h
  | some last =>
    have hform : ∃ a, analyze cutoff df = some a := by
      simp only [analyze, hx]
      exact ⟨_, rfl⟩
    obtain ⟨a, ha⟩ := hform
    refine ⟨a, ha, ?_⟩
    intro h20
    have hs : rollingMeanLast SMA_PERIOD 0 (df.map Bar.close) = none :=
      rollingMeanLast_short _ _ _ (by simp only [List.length_map]; omega)
    simp only [analyze, hx] at ha
    obtain rfl := Option.some_inj.mp ha
    exact hs

/-- Witness for C9 (amended) on a one-bar frame. -/
theorem c9_insufficient_data_witness :
    (([wbar1] : List Bar) ≠ []) ∧
      ((∃ a, analyze 0 [wbar1] = some a ∧
        ([wbar1].length < SMA_PERIOD → a.sma20 = none)) ∧
        analyze 0 ([] : List Bar) = none) :=
  ⟨by decide, c9_insufficient_data 0 [wbar1] (by decide)⟩

end StockAnalyze
